import Mathlib

/-!
# LogeekMind quiz/exam workflow — verification of the specification

This file gives a shallow embedding, in Lean 4, of the quiz/exam generation,
grading, and sharing workflow of the LogeekMind backend
(`backend/app/services/exam_simulator_service.py`,
`backend/app/services/smart_quiz_service.py`,
`backend/app/routers/exam_simulator.py`, `backend/app/routers/smart_quiz.py`),
and proves or refutes the specification's claims about it.

Modelling conventions:
* Python strings are Lean `String`s; the Python operations `str.strip`,
  `str.lower`, `str.upper`, `str.capitalize` and the substring test `in` are
  modelled by the `py*` functions below, over the character list of the
  string, with the ASCII case mapping (`Char.toLower` / `Char.toUpper`),
  which agrees with CPython on the ASCII strings this workflow handles.
* Python dicts of submitted answers (`Dict[str, str]`) are modelled as total
  functions `String → Option String` (`none` = key absent).
* A "question dict" freshly parsed from the AI response is a `RawQuestion`;
  for each field it distinguishes exactly the states the two validators can
  tell apart: a missing key, a present `None` (which only the quiz validator
  lets through for `question`/`explanation`), and a proper value (see the
  doc comments on `PyValue` and `RawQuestion`).
* Python `float` arithmetic is modelled by exact rational arithmetic (`ℚ`);
  `round(x, 2)` is modelled by ideal round-half-to-even (`roundHalfEven`),
  which is CPython's documented rounding mode.
* Database and AI calls are external collaborators: functions that the
  services invoke through them take the collaborator's reply as an explicit
  oracle argument (e.g. `ai_questions : Option (List RawQuestion)` for the
  parsed model output, `db_insert_ok : Bool` for an insert round-trip).
-/

namespace LogeekMind

/-! ## Python string primitives -/

/-- Whitespace stripped by Python's `str.strip()` (ASCII fragment). -/
def pyIsSpace (c : Char) : Bool :=
  c = ' ' ∨ c = '\t' ∨ c = '\n' ∨ c = '\r' ∨ c = '\x0b' ∨ c = '\x0c'

/-- Python `s.strip()`: remove leading and trailing whitespace. -/
def pyStrip (s : String) : String :=
  String.mk (((s.data.dropWhile pyIsSpace).reverse.dropWhile pyIsSpace).reverse)

/-- Python `s.lower()` (ASCII case mapping). -/
def pyLower (s : String) : String :=
  String.mk (s.data.map Char.toLower)

/-- Python `s.upper()` (ASCII case mapping). -/
def pyUpper (s : String) : String :=
  String.mk (s.data.map Char.toUpper)

/-- Python `s.capitalize()`: first character uppercased, the rest lowercased. -/
def pyCapitalize (s : String) : String :=
  match s.data with
  | [] => ""
  | c :: cs => String.mk (c.toUpper :: cs.map Char.toLower)

/-- Python `needle in hay` on strings: contiguous substring test. -/
def pyIn (needle hay : String) : Bool :=
  decide (List.IsInfix needle.data hay.data)

/-- Auxiliary loop for `pyStartsWith`. -/
def pyStartsWithLoop : List Char → List Char → Bool
  | [], _ => true
  | _ :: _, [] => false
  | c :: cs, d :: ds => c = d && pyStartsWithLoop cs ds

/-- Python `s.startswith(pre)`. -/
def pyStartsWith (s pre : String) : Bool :=
  pyStartsWithLoop pre.data s.data

/-- Python `chr n` as a one-character string (`chr(65 + option_idx)` in the
source). -/
def pyChr (n : Nat) : String :=
  String.mk [Char.ofNat n]

/-- Python `bool(s)` for an optional string: `None` and `""` are falsy. -/
def pyTruthy (o : Option String) : Bool :=
  match o with
  | none => false
  | some s => s ≠ ""

/-- Ideal round-half-to-even of a rational to an integer: CPython's rounding
mode for `round`. -/
def roundHalfEven (x : ℚ) : ℤ :=
  let f := ⌊x⌋
  if x - f < 1 / 2 then f
  else if x - f > 1 / 2 then f + 1
  else if f % 2 = 0 then f else f + 1

/-- Python `round(x, 2)`. -/
def pyRound2 (x : ℚ) : ℚ :=
  (roundHalfEven (x * 100) : ℚ) / 100

/-! ## Character-case lemmas

The exam-side grading loop compares answers through `.upper()` while the
shared-quiz loop compares through `.lower()`; these lemmas show the two
induce the same equivalence on strings. -/

theorem char_ofNat_toNat_of_lt (n : Nat) (h : n < 0xd800) : (Char.ofNat n).toNat = n := by
  have hv : n.isValidChar := Or.inl h
  unfold Char.ofNat
  rw [dif_pos hv]
  rfl

theorem char_toNat_inj {c d : Char} (h : c.toNat = d.toNat) : c = d := by
  apply Char.eq_of_val_eq
  exact UInt32.toNat.inj h

theorem char_eq_iff_toNat (c d : Char) : c = d ↔ c.toNat = d.toNat :=
  ⟨fun h => h ▸ rfl, char_toNat_inj⟩

theorem toLower_toNat (c : Char) :
    (Char.toLower c).toNat = if c.toNat ≥ 65 ∧ c.toNat ≤ 90 then c.toNat + 32 else c.toNat := by
  have hdef : Char.toLower c =
      if c.toNat ≥ 65 ∧ c.toNat ≤ 90 then Char.ofNat (c.toNat + 32) else c := rfl
  rw [hdef]
  split_ifs with h
  · exact char_ofNat_toNat_of_lt _ (by omega)
  · rfl

theorem toUpper_toNat (c : Char) :
    (Char.toUpper c).toNat = if c.toNat ≥ 97 ∧ c.toNat ≤ 122 then c.toNat - 32 else c.toNat := by
  have hdef : Char.toUpper c =
      if c.toNat ≥ 97 ∧ c.toNat ≤ 122 then Char.ofNat (c.toNat - 32) else c := rfl
  rw [hdef]
  split_ifs with h
  · exact char_ofNat_toNat_of_lt _ (by omega)
  · rfl

theorem char_toLower_eq_iff_toUpper_eq (c d : Char) :
    Char.toLower c = Char.toLower d ↔ Char.toUpper c = Char.toUpper d := by
  rw [char_eq_iff_toNat, char_eq_iff_toNat, toLower_toNat, toLower_toNat,
    toUpper_toNat, toUpper_toNat]
  split_ifs <;> omega

theorem map_eq_map_iff_of_iff {f g : Char → Char}
    (hfg : ∀ c d, f c = f d ↔ g c = g d) :
    ∀ (l₁ l₂ : List Char), l₁.map f = l₂.map f ↔ l₁.map g = l₂.map g := by
  intro l₁
  induction l₁ with
  | nil => intro l₂; cases l₂ <;> simp
  | cons c cs ih =>
    intro l₂
    cases l₂ with
    | nil => simp
    | cons d ds => simp [hfg c d, ih ds]

theorem pyLower_eq_iff_pyUpper_eq (s t : String) :
    pyLower s = pyLower t ↔ pyUpper s = pyUpper t := by
  unfold pyLower pyUpper
  rw [String.ext_iff, String.ext_iff]
  exact map_eq_map_iff_of_iff char_toLower_eq_iff_toUpper_eq s.data t.data

theorem pyUpper_eq_empty_iff (s : String) : pyUpper s = "" ↔ s = "" := by
  unfold pyUpper
  cases s with
  | mk data =>
    show String.mk (data.map Char.toUpper) = String.mk [] ↔ String.mk data = String.mk []
    rw [String.ext_iff, String.ext_iff]
    cases data <;> simp

theorem pyLower_eq_empty_iff (s : String) : pyLower s = "" ↔ s = "" := by
  unfold pyLower
  cases s with
  | mk data =>
    show String.mk (data.map Char.toLower) = String.mk [] ↔ String.mk data = String.mk []
    rw [String.ext_iff, String.ext_iff]
    cases data <;> simp

/-! ## Data model -/

/-- A Python value sitting under a present dict key that the quiz validator
never inspects: either `None` or a string. The two must stay distinguishable
from a missing key, because the quiz validator checks only key presence for
`question` and `explanation` (a present `None` survives there), while the
exam validator's `is not None` check drops it. -/
inductive PyValue where
  | pyNone
  | pyStr (s : String)
deriving DecidableEq, Repr

/-- A question record as parsed from the AI response, before validation.
* `question`, `explanation` : `none` = key absent; `some .pyNone` = key
  present with value `None`; `some (.pyStr s)` = string value. The
  distinction matters (see `PyValue`).
* `options` : `none` = key absent, value `None`, or a non-list value — every
  such case is dropped by both validators (the key-presence / `is not None`
  checks and the `isinstance(..., list)` test).
* `answer` : `none` = key absent or value `None` — both are dropped by both
  validators (the exam validator by its `is not None` check; the quiz
  validator because `None.strip()` raises `AttributeError`, caught by its
  `try/except`, which skips the question). -/
structure RawQuestion where
  question : Option PyValue
  options : Option (List String)
  answer : Option String
  explanation : Option PyValue
deriving DecidableEq, Repr

/-- A validated question: all four keys present, `answer` rewritten by the
validator's normalization. `question` and `explanation` remain `PyValue`
because the quiz validator passes a present `None` through untouched; the
exam validator only ever emits `.pyStr` values there. -/
structure Question where
  question : PyValue
  options : List String
  answer : String
  explanation : PyValue
deriving DecidableEq, Repr

/-- The option-matching loop shared verbatim by both validators
(`smart_quiz_service.py` lines 54-63, `exam_simulator_service.py` lines
290-298): scan `options` in order, returning the index and text of the first
option that equals the answer case-insensitively or contains it / is
contained in it (case-sensitively). -/
def find_matching_option_loop (answer : String) : Nat → List String → Option (Nat × String)
  | _, [] => none
  | option_idx, option_text :: rest =>
    if pyLower answer = pyLower option_text ∨ pyIn answer option_text = true ∨
        pyIn option_text answer = true then
      some (option_idx, option_text)
    else
      find_matching_option_loop answer (option_idx + 1) rest

/-- Entry point of the option-matching loop, from index 0. -/
def find_matching_option (options : List String) (answer : String) : Option (Nat × String) :=
  find_matching_option_loop answer 0 options

namespace SmartQuizService

/-- The answer-fixing block of `validate_and_fix_quiz_questions`
(`smart_quiz_service.py` lines 47-67), as a function of the question's
options and raw answer. -/
def normalize_quiz_answer (options : List String) (raw_answer : String) : String :=
  let answer := pyStrip raw_answer
  if answer.length = 1 ∧ (pyUpper answer = "A" ∨ pyUpper answer = "B" ∨
      pyUpper answer = "C" ∨ pyUpper answer = "D") then
    pyUpper answer
  else if pyLower answer = "true" ∨ pyLower answer = "false" then
    pyCapitalize answer
  else
    match find_matching_option options answer with
    | some (option_idx, option_text) =>
      if options.length = 4 then pyChr (65 + option_idx) else pyCapitalize option_text
    | none =>
      if options.length = 4 then "A" else "True"

/-- `validate_and_fix_quiz_questions` (`smart_quiz_service.py` lines 35-74):
drop questions missing any of the four keys, questions whose `options` value
is not a list of length 2 or 4, and questions whose `answer` value is `None`
(its `.strip()` raises `AttributeError`, caught by the `try/except`, which
skips the question); then rewrite the `answer` field of the survivors. The
values of `question` and `explanation` are never inspected, so a present
`None` there survives. -/
def validate_and_fix_quiz_questions (quiz_data : List RawQuestion) : List Question :=
  quiz_data.filterMap fun q =>
    match q.question, q.options, q.answer, q.explanation with
    | some text, some opts, some ans, some expl =>
      if opts.length = 2 ∨ opts.length = 4 then
        some { question := text, options := opts,
               answer := normalize_quiz_answer opts ans, explanation := expl }
      else none
    | _, _, _, _ => none

/-- `calculate_grade` (`smart_quiz_service.py` lines 315-331). This revision
rounds the percentage to two decimal places. -/
def calculate_grade (score total : Nat) : String × String × ℚ :=
  if total = 0 then ("N/A", "No questions graded.", 0)
  else
    let percentage : ℚ := pyRound2 ((score : ℚ) / (total : ℚ) * 100)
    if percentage ≥ 70 then ("A", "Excellent! Distinction level.", percentage)
    else if percentage ≥ 60 then ("B", "Very Good. Keep it up.", percentage)
    else if percentage ≥ 50 then ("C", "Credit. You passed, but barely.", percentage)
    else if percentage ≥ 45 then ("D", "Pass. You need to study more.", percentage)
    else if percentage ≥ 40 then ("E", "Weak Pass. Dangerous territory.", percentage)
    else ("F", "Fail. You are not ready for this exam.", percentage)

/-- The scoring loop of `save_shared_quiz_submission` (`smart_quiz_service.py`
lines 411-417): for each question index, compare the submitted label
(default `""`) with the question's answer, both stripped and lowercased. -/
def shared_quiz_score_loop (user_answers : String → Option String) :
    Nat → List Question → Nat
  | _, [] => 0
  | idx, q :: rest =>
    (if pyLower (pyStrip ((user_answers (toString idx)).getD "")) =
        pyLower (pyStrip q.answer) then 1 else 0) +
    shared_quiz_score_loop user_answers (idx + 1) rest

/-- The in-memory report assembled by `save_shared_quiz_submission`
(`smart_quiz_service.py` lines 396-451); the database row id of the saved
submission is an external collaborator's value and is not modelled. -/
structure QuizSubmissionReport where
  success : Bool
  score : Nat
  total_questions : Nat
  percentage_score : ℚ
  grade : String
  remark : String
deriving DecidableEq, Repr

/-- The grading core of `save_shared_quiz_submission` (`smart_quiz_service.py`
lines 396-451), as a function of the authoritative question list fetched for
the share token and of the submitted answers; the fetch and the insert are
external collaborators. -/
def save_shared_quiz_submission (quiz_data : List Question)
    (user_answers : String → Option String) : QuizSubmissionReport :=
  let total_questions := quiz_data.length
  let score := shared_quiz_score_loop user_answers 0 quiz_data
  let g := calculate_grade score total_questions
  { success := true, score := score, total_questions := total_questions,
    percentage_score := g.2.2, grade := g.1, remark := g.2.1 }

/-- The percentile formatting `f"{percentile:.0f}"` used in the comparison
messages. -/
def format_percentile (p : ℚ) : String :=
  toString (roundHalfEven p)

/-- Outcome of a performance-comparison call. -/
structure ComparisonResult where
  success : Bool
  comparison_message : String
  percentile : Option ℚ
deriving DecidableEq, Repr

/-- `get_quiz_performance_comparison` (`smart_quiz_service.py` lines 333-369),
as a function of the non-null percentages fetched for the shared quiz and of
the current percentage; the database fetch is an external collaborator. -/
def get_quiz_performance_comparison (all_percentages : List ℚ)
    (current_score_percentage : ℚ) : ComparisonResult :=
  if all_percentages.isEmpty then
    { success := true,
      comparison_message := "No other submissions yet for comparison.",
      percentile := none }
  else
    let better_than_count := all_percentages.countP fun p => current_score_percentage > p
    if all_percentages.length > 0 then
      let percentile : ℚ := (better_than_count : ℚ) / (all_percentages.length : ℚ) * 100
      let fmt := format_percentile percentile
      let comparison_message :=
        if percentile ≥ 90 then
          s!"Outstanding! You performed better than {fmt}% of test takers."
        else if percentile ≥ 75 then
          s!"Excellent! You performed better than {fmt}% of test takers."
        else if percentile ≥ 50 then
          s!"Good job! You performed better than {fmt}% of test takers."
        else
          s!"You performed better than {fmt}% of test takers. Keep studying!"
      { success := true, comparison_message := comparison_message,
        percentile := some percentile }
    else
      { success := true,
        comparison_message := "Be the first to set the bar for this quiz!",
        percentile := none }

end SmartQuizService

namespace ExamSimulatorService

/-- The answer-fixing block of `validate_and_fix_exam_questions`
(`exam_simulator_service.py` lines 283-303): no `true`/`false` rule, and a
matched option always yields its positional letter. -/
def normalize_exam_answer (options : List String) (raw_answer : String) : String :=
  let answer := pyStrip raw_answer
  if answer.length = 1 ∧ (pyUpper answer = "A" ∨ pyUpper answer = "B" ∨
      pyUpper answer = "C" ∨ pyUpper answer = "D") then
    pyUpper answer
  else
    match find_matching_option options answer with
    | some (option_idx, _) => pyChr (65 + option_idx)
    | none => "A"

/-- `validate_and_fix_exam_questions` (`exam_simulator_service.py` lines
245-311): unlike the quiz validator it checks `safe_get(question, key) is
not None` for all four fields — so a present-but-`None` `question` or
`explanation` is dropped here — and requires exactly 4 options. -/
def validate_and_fix_exam_questions (exam_data : List RawQuestion) : List Question :=
  exam_data.filterMap fun q =>
    match q.question, q.options, q.answer, q.explanation with
    | some (PyValue.pyStr text), some opts, some ans, some (PyValue.pyStr expl) =>
      if opts.length = 4 then
        some { question := PyValue.pyStr text, options := opts,
               answer := normalize_exam_answer opts ans,
               explanation := PyValue.pyStr expl }
      else none
    | _, _, _, _ => none

/-- `calculate_grade` (`exam_simulator_service.py` lines 185-201). This
revision does NOT round the percentage. -/
def calculate_grade (score total : Nat) : String × String × ℚ :=
  if total = 0 then ("N/A", "No questions graded.", 0)
  else
    let percentage : ℚ := (score : ℚ) / (total : ℚ) * 100
    if percentage ≥ 70 then ("A", "Excellent! Distinction level.", percentage)
    else if percentage ≥ 60 then ("B", "Very Good. Keep it up.", percentage)
    else if percentage ≥ 50 then ("C", "Credit. You passed, but barely.", percentage)
    else if percentage ≥ 45 then ("D", "Pass. You need to study more.", percentage)
    else if percentage ≥ 40 then ("E", "Weak Pass. Dangerous territory.", percentage)
    else ("F", "Fail. You are not ready for this exam.", percentage)

/-- The scoring loop of `grade_exam_and_log_performance`
(`exam_simulator_service.py` lines 561-584): a missing or empty submitted
label, or a missing or empty stored answer, skips the question; otherwise
both sides are stripped and uppercased and compared. -/
def exam_score_loop (user_answers : String → Option String) :
    Nat → List Question → Nat
  | _, [] => 0
  | idx, q :: rest =>
    (match user_answers (toString idx) with
     | none => 0
     | some user_selected_label =>
       if user_selected_label = "" ∨ q.answer = "" then 0
       else if pyUpper (pyStrip user_selected_label) = pyUpper (pyStrip q.answer)
       then 1 else 0) +
    exam_score_loop user_answers (idx + 1) rest

/-- The result dict of `grade_exam_and_log_performance`
(`exam_simulator_service.py` lines 617-624). -/
structure ExamGradingReport where
  success : Bool
  score : Nat
  total_questions : Nat
  grade : String
  remark : String
  percentage : ℚ
deriving DecidableEq, Repr

/-- The grading core of `grade_exam_and_log_performance`
(`exam_simulator_service.py` lines 547-624); the usage/performance logging
calls are external collaborators with no effect on the returned report. -/
def grade_exam_and_log_performance (exam_data : List Question)
    (user_answers : String → Option String) : ExamGradingReport :=
  let total_questions := exam_data.length
  let score := exam_score_loop user_answers 0 exam_data
  let g := calculate_grade score total_questions
  { success := true, score := score, total_questions := total_questions,
    grade := g.1, remark := g.2.1, percentage := g.2.2 }

/-- `get_exam_performance_comparison` (`exam_simulator_service.py` lines
203-242): identical to the quiz comparator up to the dead-branch message. -/
def get_exam_performance_comparison (all_percentages : List ℚ)
    (current_score_percentage : ℚ) : SmartQuizService.ComparisonResult :=
  if all_percentages.isEmpty then
    { success := true,
      comparison_message := "No other submissions yet for comparison.",
      percentile := none }
  else
    let better_than_count := all_percentages.countP fun p => current_score_percentage > p
    if all_percentages.length > 0 then
      let percentile : ℚ := (better_than_count : ℚ) / (all_percentages.length : ℚ) * 100
      let fmt := SmartQuizService.format_percentile percentile
      let comparison_message :=
        if percentile ≥ 90 then
          s!"Outstanding! You performed better than {fmt}% of test takers."
        else if percentile ≥ 75 then
          s!"Excellent! You performed better than {fmt}% of test takers."
        else if percentile ≥ 50 then
          s!"Good job! You performed better than {fmt}% of test takers."
        else
          s!"You performed better than {fmt}% of test takers. Keep studying!"
      { success := true, comparison_message := comparison_message,
        percentile := some percentile }
    else
      { success := true,
        comparison_message := "Be the first to set the bar for this exam!",
        percentile := none }

end ExamSimulatorService

/-- Outcome of a generation service call (`generate_quiz_service` /
`generate_exam_questions`): success flag, failure message, validated
questions, share id, and whether a shared record was actually inserted. -/
structure GenerationOutcome where
  success : Bool
  message : Option String
  generated_data : Option (List Question)
  share_id : Option String
  shared_record_inserted : Bool
deriving DecidableEq, Repr

namespace SmartQuizService

/-- `generate_quiz_service` (`smart_quiz_service.py` lines 76-231). The Groq
client acquisition and model calls, the markdown cleaning, and the JSON
parsing are external collaborators, abstracted as `groq_ok` (client obtained
and some model answered) and `ai_questions` (the parsed JSON array; `none` =
no model answered usable JSON-list output). `fresh_share_id` stands for
`str(uuid.uuid4())` and `db_insert_ok` for the shared-quizzes insert
round-trip. -/
def generate_quiz_service (user_id : String) (quiz_topic : String)
    (is_sharable : Bool) (groq_ok : Bool)
    (ai_questions : Option (List RawQuestion))
    (fresh_share_id : String) (db_insert_ok : Bool) : GenerationOutcome :=
  if quiz_topic = "" then
    { success := false, message := some "Quiz topic is required.",
      generated_data := none, share_id := none, shared_record_inserted := false }
  else if is_sharable = true ∧ pyStartsWith user_id "guest_" = true then
    { success := false,
      message := some "Guest users cannot create sharable quizzes. Please log in.",
      generated_data := none, share_id := none, shared_record_inserted := false }
  else if groq_ok = false then
    { success := false,
      message := some "AI service is currently overloaded. Please try again.",
      generated_data := none, share_id := none, shared_record_inserted := false }
  else
    match ai_questions with
    | none =>
      { success := false,
        message := some "AI returned an invalid quiz format. Try again.",
        generated_data := none, share_id := none, shared_record_inserted := false }
    | some raw =>
      let generated_quiz_data := validate_and_fix_quiz_questions raw
      if generated_quiz_data.isEmpty then
        { success := false,
          message := some "AI generated invalid questions. Please try again.",
          generated_data := none, share_id := none, shared_record_inserted := false }
      else if is_sharable then
        if db_insert_ok then
          { success := true, message := none,
            generated_data := some generated_quiz_data,
            share_id := some fresh_share_id, shared_record_inserted := true }
        else
          { success := true, message := none,
            generated_data := some generated_quiz_data,
            share_id := none, shared_record_inserted := false }
      else
        { success := true, message := none,
          generated_data := some generated_quiz_data,
          share_id := none, shared_record_inserted := false }

end SmartQuizService

namespace ExamSimulatorService

/-- `generate_exam_questions` (`exam_simulator_service.py` lines 314-544),
with the same external-collaborator abstraction as the quiz service; `topic`
and `lecture_notes_content` are the optional request fields, tested with
Python truthiness. -/
def generate_exam_questions (user_id : String) (course_name : String)
    (topic lecture_notes_content : Option String) (is_sharable : Bool)
    (groq_ok : Bool) (ai_questions : Option (List RawQuestion))
    (fresh_share_id : String) (db_insert_ok : Bool) : GenerationOutcome :=
  if course_name = "" then
    { success := false, message := some "Course Name is required.",
      generated_data := none, share_id := none, shared_record_inserted := false }
  else if pyTruthy topic = false ∧ pyTruthy lecture_notes_content = false then
    { success := false,
      message := some "Either a topic or lecture notes must be provided.",
      generated_data := none, share_id := none, shared_record_inserted := false }
  else if is_sharable = true ∧ pyStartsWith user_id "guest_" = true then
    { success := false,
      message := some "Guest users cannot create sharable exams. Please log in to use this feature.",
      generated_data := none, share_id := none, shared_record_inserted := false }
  else if groq_ok = false then
    { success := false,
      message := some "AI service is currently overloaded. Please try again.",
      generated_data := none, share_id := none, shared_record_inserted := false }
  else
    match ai_questions with
    | none =>
      { success := false,
        message := some "AI generated an invalid exam format. Please try generating again.",
        generated_data := none, share_id := none, shared_record_inserted := false }
    | some raw =>
      let generated_exam_data := validate_and_fix_exam_questions raw
      if generated_exam_data.isEmpty then
        { success := false,
          message := some "AI generated invalid questions. Please try again.",
          generated_data := none, share_id := none, shared_record_inserted := false }
      else if is_sharable then
        if db_insert_ok then
          { success := true, message := none,
            generated_data := some generated_exam_data,
            share_id := some fresh_share_id, shared_record_inserted := true }
        else
          { success := true, message := none,
            generated_data := some generated_exam_data,
            share_id := none, shared_record_inserted := false }
      else
        { success := true, message := none,
          generated_data := some generated_exam_data,
          share_id := none, shared_record_inserted := false }

end ExamSimulatorService

namespace Routers

/-- The guest-usage check-and-increment logic inlined in both `/generate`
routes (`routers/exam_simulator.py` lines 73-77, `routers/smart_quiz.py`
lines 80-84): deny without incrementing when the stored count (implicitly 0)
has reached the limit, otherwise increment by one and allow. The tracker dict
is modelled as a total function with default 0. -/
def guest_check_and_increment (guest_usage_tracker : String → Nat)
    (guest_id : String) (limit : Nat) : Bool × (String → Nat) :=
  let usage := guest_usage_tracker guest_id
  if usage ≥ limit then
    (false, guest_usage_tracker)
  else
    (true, fun k => if k = guest_id then usage + 1 else guest_usage_tracker k)

/-- `GUEST_LIMIT` in both routers. -/
def GUEST_LIMIT : Nat := 1

/-- A route's reply: either an `HTTPException` (status code and detail) or
the service outcome passed through. -/
inductive RouteResult where
  | httpError (statusCode : Nat) (detail : String)
  | ok (outcome : GenerationOutcome)
deriving DecidableEq, Repr

/-- The error mapping both `/generate` routes apply to a failed service
outcome (`routers/smart_quiz.py` lines 99-104, `routers/exam_simulator.py`
lines 94-103, minus the exam route's file-error branch, whose marker string
the modelled services never emit either). -/
def wrap_service_outcome (o : GenerationOutcome) : RouteResult :=
  if o.success then .ok o
  else
    let msg := (o.message).getD ""
    if pyIn "Rate Limit Hit" msg then .httpError 429 msg
    else if pyIn "feature is currently unavailable" msg then .httpError 503 msg
    else .httpError 400 msg

/-- `generate_quiz_route` (`routers/smart_quiz.py` lines 69-113): an
authenticated user is `some (id, username)`; an anonymous request runs the
guest limiter under the bucket `"guest_smart_quiz"` and, if allowed, calls
the service with that string as `user_id`. Returns the reply and the updated
tracker. -/
def generate_quiz_route (current_user : Option (String × String))
    (guest_usage_tracker : String → Nat) (quiz_topic : String)
    (is_sharable : Bool) (groq_ok : Bool)
    (ai_questions : Option (List RawQuestion))
    (fresh_share_id : String) (db_insert_ok : Bool) :
    RouteResult × (String → Nat) :=
  match current_user with
  | some (user_id, _username) =>
    (wrap_service_outcome (SmartQuizService.generate_quiz_service user_id
      quiz_topic is_sharable groq_ok ai_questions fresh_share_id db_insert_ok),
     guest_usage_tracker)
  | none =>
    let r := guest_check_and_increment guest_usage_tracker "guest_smart_quiz" GUEST_LIMIT
    if r.1 = false then
      (.httpError 429 "Guest limit exceeded. Please log in or sign up for unlimited access.",
       guest_usage_tracker)
    else
      (wrap_service_outcome (SmartQuizService.generate_quiz_service "guest_smart_quiz"
        quiz_topic is_sharable groq_ok ai_questions fresh_share_id db_insert_ok),
       r.2)

/-- `generate_exam_route` (`routers/exam_simulator.py` lines 63-110), guest
bucket `"guest_exam_simulator_generate"`. -/
def generate_exam_route (current_user : Option (String × String))
    (guest_usage_tracker : String → Nat) (course_name : String)
    (topic lecture_notes_content : Option String) (is_sharable : Bool)
    (groq_ok : Bool) (ai_questions : Option (List RawQuestion))
    (fresh_share_id : String) (db_insert_ok : Bool) :
    RouteResult × (String → Nat) :=
  match current_user with
  | some (user_id, _username) =>
    (wrap_service_outcome (ExamSimulatorService.generate_exam_questions user_id
      course_name topic lecture_notes_content is_sharable groq_ok ai_questions
      fresh_share_id db_insert_ok),
     guest_usage_tracker)
  | none =>
    let r := guest_check_and_increment guest_usage_tracker
      "guest_exam_simulator_generate" GUEST_LIMIT
    if r.1 = false then
      (.httpError 429 "Guest limit of 1 exam generations exceeded. Please log in for unlimited access.",
       guest_usage_tracker)
    else
      (wrap_service_outcome (ExamSimulatorService.generate_exam_questions
        "guest_exam_simulator_generate" course_name topic lecture_notes_content
        is_sharable groq_ok ai_questions fresh_share_id db_insert_ok),
       r.2)

end Routers

/-! ## Claim-side (specification) definitions -/

/-- Specification counting loop for the grading score: an index contributes 1
exactly when an answer was submitted for it and, after trimming surrounding
whitespace, it equals the question's answer label case-insensitively. -/
def spec_score_loop (user_answers : String → Option String) :
    Nat → List Question → Nat
  | _, [] => 0
  | idx, q :: rest =>
    (match user_answers (toString idx) with
     | none => 0
     | some submitted => if pyUpper (pyStrip submitted) = pyUpper q.answer then 1 else 0) +
    spec_score_loop user_answers (idx + 1) rest

/-- Specification score: the number of indices below the length of the
question list at which the submitted answer, trimmed, matches the answer
label case-insensitively. -/
def spec_score (qs : List Question) (user_answers : String → Option String) : Nat :=
  spec_score_loop user_answers 0 qs

/-- A canonical-form answer label: non-empty and carrying no surrounding
whitespace (every canonical label `"A".."D"`, `"True"`, `"False"` is such). -/
def canonicalShape (q : Question) : Prop :=
  q.answer ≠ "" ∧ pyStrip q.answer = q.answer

instance (q : Question) : Decidable (canonicalShape q) :=
  inferInstanceAs (Decidable (q.answer ≠ "" ∧ pyStrip q.answer = q.answer))

/-! ## Bridging lemmas for the grading loops -/

theorem pyStrip_empty : pyStrip "" = "" := rfl

theorem exam_score_loop_eq_spec (ans : String → Option String) (qs : List Question)
    (h : ∀ q ∈ qs, canonicalShape q) :
    ∀ idx, ExamSimulatorService.exam_score_loop ans idx qs = spec_score_loop ans idx qs := by
  induction qs with
  | nil => intro idx; rfl
  | cons q rest ih =>
    intro idx
    have hq : canonicalShape q := h q (List.mem_cons_self q rest)
    have hrest : ∀ q ∈ rest, canonicalShape q := fun r hr => h r (List.mem_cons_of_mem q hr)
    unfold ExamSimulatorService.exam_score_loop spec_score_loop
    rw [ih hrest]
    congr 1
    cases hans : ans (toString idx) with
    | none => rfl
    | some label =>
      show (if label = "" ∨ q.answer = "" then 0
            else if pyUpper (pyStrip label) = pyUpper (pyStrip q.answer) then 1 else 0)
          = (if pyUpper (pyStrip label) = pyUpper q.answer then 1 else 0)
      by_cases hlabel : label = ""
      · subst hlabel
        rw [if_pos (Or.inl rfl), if_neg]
        rw [pyStrip_empty]
        intro hcontr
        exact hq.1 ((pyUpper_eq_empty_iff q.answer).mp hcontr.symm)
      · rw [if_neg (by simp [hlabel, hq.1])]
        rw [hq.2]

theorem shared_quiz_score_loop_eq_spec (ans : String → Option String) (qs : List Question)
    (h : ∀ q ∈ qs, canonicalShape q) :
    ∀ idx, SmartQuizService.shared_quiz_score_loop ans idx qs = spec_score_loop ans idx qs := by
  induction qs with
  | nil => intro idx; rfl
  | cons q rest ih =>
    intro idx
    have hq : canonicalShape q := h q (List.mem_cons_self q rest)
    have hrest : ∀ q ∈ rest, canonicalShape q := fun r hr => h r (List.mem_cons_of_mem q hr)
    unfold SmartQuizService.shared_quiz_score_loop spec_score_loop
    rw [ih hrest]
    congr 1
    rw [hq.2]
    cases hans : ans (toString idx) with
    | none =>
      show (if pyLower (pyStrip "") = pyLower q.answer then 1 else 0) = 0
      rw [if_neg]
      rw [pyStrip_empty]
      intro hcontr
      exact hq.1 ((pyLower_eq_empty_iff q.answer).mp hcontr.symm)
    | some submitted =>
      show (if pyLower (pyStrip submitted) = pyLower q.answer then 1 else 0)
        = (if pyUpper (pyStrip submitted) = pyUpper q.answer then 1 else 0)
      exact if_congr (pyLower_eq_iff_pyUpper_eq (pyStrip submitted) q.answer) rfl rfl

/-! ## Concrete inputs used by the claims -/

/-- The two questions of the grading-correctness example: answer labels
`"B"` (4 options) and `"True"` (2 options). -/
def c1_questions : List Question :=
  [{ question := PyValue.pyStr "q1", options := ["o1", "o2", "o3", "o4"], answer := "B",
     explanation := PyValue.pyStr "e1" },
   { question := PyValue.pyStr "q2", options := ["True", "False"], answer := "True",
     explanation := PyValue.pyStr "e2" }]

/-- The submitted answers `{0: "B", 1: "false"}` of the example. -/
def c1_answers : String → Option String := fun k =>
  if k = "0" then some "B" else if k = "1" then some "false" else none

/-! ## Concrete evaluations used by C1 -/

theorem c1_exam_report_eval :
    ExamSimulatorService.grade_exam_and_log_performance c1_questions c1_answers =
      { success := true, score := 1, total_questions := 2, grade := "C",
        remark := "Credit. You passed, but barely.", percentage := 50 } := by
  unfold ExamSimulatorService.grade_exam_and_log_performance
  have hscore : ExamSimulatorService.exam_score_loop c1_answers 0 c1_questions = 1 := rfl
  have hlen : c1_questions.length = 2 := rfl
  have hg : ExamSimulatorService.calculate_grade 1 2 =
      ("C", "Credit. You passed, but barely.", 50) := by
    unfold ExamSimulatorService.calculate_grade
    norm_num
  rw [hscore, hlen]
  simp only [hg]

theorem c1_quiz_report_eval :
    SmartQuizService.save_shared_quiz_submission c1_questions c1_answers =
      { success := true, score := 1, total_questions := 2, percentage_score := 50,
        grade := "C", remark := "Credit. You passed, but barely." } := by
  unfold SmartQuizService.save_shared_quiz_submission
  have hscore : SmartQuizService.shared_quiz_score_loop c1_answers 0 c1_questions = 1 := rfl
  have hlen : c1_questions.length = 2 := rfl
  have hg : SmartQuizService.calculate_grade 1 2 =
      ("C", "Credit. You passed, but barely.", 50) := by
    unfold SmartQuizService.calculate_grade
    norm_num [pyRound2, roundHalfEven]
  rw [hscore, hlen]
  simp only [hg]

/-! ## C1 -/

/-- C1: for every question list and submitted-answer mapping (with the
questions carrying canonical-shape answer labels, as the validator
guarantees), both grading engines return a score equal to the number of
indices at which the submitted answer, trimmed, equals the question's answer
label case-insensitively; a missing submission counts as incorrect. On
questions with answer labels `["B", "True"]` and submissions
`{0: "B", 1: "false"}` the result is score 1, total 2, percentage 50.0,
grade letter `"C"`. -/
theorem C1_grading_score_counts_ci_matches
    (qs : List Question) (ans : String → Option String)
    (h : ∀ q ∈ qs, canonicalShape q) :
    (ExamSimulatorService.grade_exam_and_log_performance qs ans).score = spec_score qs ans
    ∧ (SmartQuizService.save_shared_quiz_submission qs ans).score = spec_score qs ans
    ∧ ExamSimulatorService.grade_exam_and_log_performance c1_questions c1_answers =
        { success := true, score := 1, total_questions := 2, grade := "C",
          remark := "Credit. You passed, but barely.", percentage := 50 }
    ∧ SmartQuizService.save_shared_quiz_submission c1_questions c1_answers =
        { success := true, score := 1, total_questions := 2, percentage_score := 50,
          grade := "C", remark := "Credit. You passed, but barely." } := by
  refine ⟨?_, ?_, c1_exam_report_eval, c1_quiz_report_eval⟩
  · exact exam_score_loop_eq_spec ans qs h 0
  · exact shared_quiz_score_loop_eq_spec ans qs h 0

/-- Witness for C1 at the example input. -/
theorem C1_grading_score_counts_ci_matches_witness :
    (ExamSimulatorService.grade_exam_and_log_performance c1_questions c1_answers).score
      = spec_score c1_questions c1_answers
    ∧ (SmartQuizService.save_shared_quiz_submission c1_questions c1_answers).score
      = spec_score c1_questions c1_answers := by
  have h := C1_grading_score_counts_ci_matches c1_questions c1_answers (by decide)
  exact ⟨h.1, h.2.1⟩

/-! ## C2 -/

/-- A three-question exam used to exhibit the unrounded exam percentage. -/
def c2_questions : List Question :=
  [{ question := PyValue.pyStr "q1", options := ["o1", "o2", "o3", "o4"], answer := "A",
     explanation := PyValue.pyStr "e1" },
   { question := PyValue.pyStr "q2", options := ["o1", "o2", "o3", "o4"], answer := "B",
     explanation := PyValue.pyStr "e2" },
   { question := PyValue.pyStr "q3", options := ["o1", "o2", "o3", "o4"], answer := "C",
     explanation := PyValue.pyStr "e3" }]

/-- Submitted answers scoring 1 of 3 on `c2_questions`. -/
def c2_answers : String → Option String := fun k =>
  if k = "0" then some "A" else none

/-- C2 counterexample: on 3 questions with 1 correct answer, the exam grading
engine returns percentage `100/3`, not `round(score/total*100, 2) = 33.33`:
its `calculate_grade` revision performs no rounding. -/
theorem C2_counterexample :
    (ExamSimulatorService.grade_exam_and_log_performance c2_questions c2_answers).score = 1
    ∧ (ExamSimulatorService.grade_exam_and_log_performance c2_questions
        c2_answers).total_questions = 3
    ∧ (ExamSimulatorService.grade_exam_and_log_performance c2_questions c2_answers).percentage
        = 100 / 3
    ∧ (100 : ℚ) / 3 ≠ pyRound2 ((1 : ℚ) / 3 * 100) := by
  have heval : ExamSimulatorService.grade_exam_and_log_performance c2_questions c2_answers =
      { success := true, score := 1, total_questions := 3, grade := "F",
        remark := "Fail. You are not ready for this exam.", percentage := 100 / 3 } := by
    unfold ExamSimulatorService.grade_exam_and_log_performance
    have hscore : ExamSimulatorService.exam_score_loop c2_answers 0 c2_questions = 1 := rfl
    have hlen : c2_questions.length = 3 := rfl
    have hg : ExamSimulatorService.calculate_grade 1 3 =
        ("F", "Fail. You are not ready for this exam.", 100 / 3) := by
      unfold ExamSimulatorService.calculate_grade
      norm_num
    rw [hscore, hlen]
    simp only [hg]
  rw [heval]
  refine ⟨rfl, rfl, rfl, ?_⟩
  norm_num [pyRound2, roundHalfEven]

theorem quiz_percentage_eval (score total : Nat) (h : 0 < total) :
    (SmartQuizService.calculate_grade score total).2.2
      = pyRound2 ((score : ℚ) / (total : ℚ) * 100) := by
  unfold SmartQuizService.calculate_grade
  rw [if_neg (by omega)]
  dsimp only
  split_ifs <;> rfl

theorem exam_percentage_eval (score total : Nat) (h : 0 < total) :
    (ExamSimulatorService.calculate_grade score total).2.2
      = (score : ℚ) / (total : ℚ) * 100 := by
  unfold ExamSimulatorService.calculate_grade
  rw [if_neg (by omega)]
  dsimp only
  split_ifs <;> rfl

/-- C2 amended: for `total > 0` the smart-quiz `calculate_grade` returns
percentage `round(score/total*100, 2)` as the claim states, while the
exam-simulator `calculate_grade` returns the unrounded `score/total*100`. -/
theorem C2_percentage_formula_amended (score total : Nat) (h : 0 < total) :
    (SmartQuizService.calculate_grade score total).2.2
      = pyRound2 ((score : ℚ) / (total : ℚ) * 100)
    ∧ (ExamSimulatorService.calculate_grade score total).2.2
      = (score : ℚ) / (total : ℚ) * 100 :=
  ⟨quiz_percentage_eval score total h, exam_percentage_eval score total h⟩

/-- Witness for the amended C2 at score 1, total 3. -/
theorem C2_percentage_formula_amended_witness :
    (SmartQuizService.calculate_grade 1 3).2.2 = pyRound2 ((1 : ℚ) / 3 * 100)
    ∧ (ExamSimulatorService.calculate_grade 1 3).2.2 = (1 : ℚ) / 3 * 100 := by
  have h := C2_percentage_formula_amended 1 3 (by omega)
  constructor
  · rw [h.1]
    norm_num
  · rw [h.2]
    norm_num

/-! ## C3 -/

theorem find_matching_option_loop_index_lt (answer : String) :
    ∀ (opts : List String) (start idx : Nat) (t : String),
      find_matching_option_loop answer start opts = some (idx, t) →
      idx < start + opts.length := by
  intro opts
  induction opts with
  | nil => intro start idx t h; exact absurd h (by simp [find_matching_option_loop])
  | cons o rest ih =>
    intro start idx t h
    unfold find_matching_option_loop at h
    by_cases hc : pyLower answer = pyLower o ∨ pyIn answer o = true ∨ pyIn o answer = true
    · rw [if_pos hc] at h
      cases h
      simp only [List.length_cons]
      omega
    · rw [if_neg hc] at h
      have := ih (start + 1) idx t h
      simp only [List.length_cons]
      omega

/-- The exam normalizer always emits one of the four letters when the
question has exactly 4 options. -/
theorem normalize_exam_answer_letter (opts : List String) (h4 : opts.length = 4)
    (raw : String) :
    ExamSimulatorService.normalize_exam_answer opts raw = "A"
    ∨ ExamSimulatorService.normalize_exam_answer opts raw = "B"
    ∨ ExamSimulatorService.normalize_exam_answer opts raw = "C"
    ∨ ExamSimulatorService.normalize_exam_answer opts raw = "D" := by
  unfold ExamSimulatorService.normalize_exam_answer
  dsimp only
  split_ifs with h1
  · tauto
  · cases hfind : find_matching_option opts (pyStrip raw) with
    | none => exact Or.inl rfl
    | some p =>
      obtain ⟨idx, t⟩ := p
      have hlt : idx < 4 := by
        have := find_matching_option_loop_index_lt (pyStrip raw) opts 0 idx t hfind
        omega
      interval_cases idx
      · exact Or.inl rfl
      · exact Or.inr (Or.inl rfl)
      · exact Or.inr (Or.inr (Or.inl rfl))
      · exact Or.inr (Or.inr (Or.inr rfl))

/-- C3 counterexample: the quiz validator canonicalizes the single-letter raw
answer `"b"` of a 2-option (`True`/`False`) question to the letter `"B"`,
which is not one of the canonical 2-option labels — the single-letter rule is
applied regardless of option count. -/
theorem C3_counterexample :
    (SmartQuizService.validate_and_fix_quiz_questions
        [{ question := some (PyValue.pyStr "Q"), options := some ["True", "False"], answer := some "b",
           explanation := some (PyValue.pyStr "E") }]).map Question.answer = ["B"]
    ∧ ("B" : String) ≠ "True" ∧ ("B" : String) ≠ "False" := by
  refine ⟨?_, by decide, by decide⟩
  rfl

/-- C3 amended: the exam validator's output always carries a label canonical
for its (always 4) options — one of `"A".."D"`; the quiz validator
canonicalizes a single-letter raw answer `A`..`D` (case-insensitively) to the
uppercase letter regardless of the option count, so a 2-option question can
receive a letter label. -/
theorem C3_canonical_label_amended (exam_raw : List RawQuestion) :
    (∀ q ∈ ExamSimulatorService.validate_and_fix_exam_questions exam_raw,
      q.options.length = 4 ∧
        (q.answer = "A" ∨ q.answer = "B" ∨ q.answer = "C" ∨ q.answer = "D"))
    ∧ (∀ (options : List String) (raw : String),
        (pyStrip raw).length = 1 →
        (pyUpper (pyStrip raw) = "A" ∨ pyUpper (pyStrip raw) = "B" ∨
         pyUpper (pyStrip raw) = "C" ∨ pyUpper (pyStrip raw) = "D") →
        SmartQuizService.normalize_quiz_answer options raw = pyUpper (pyStrip raw)) := by
  constructor
  · intro q hq
    rw [ExamSimulatorService.validate_and_fix_exam_questions, List.mem_filterMap] at hq
    obtain ⟨r, _hr, hfr⟩ := hq
    cases hquestion : r.question with
    | none => rw [hquestion] at hfr; exact absurd hfr (by simp)
    | some qv =>
    cases qv with
    | pyNone => rw [hquestion] at hfr; exact absurd hfr (by simp)
    | pyStr text =>
    cases hoptions : r.options with
    | none => rw [hquestion, hoptions] at hfr; exact absurd hfr (by simp)
    | some opts =>
    cases hanswer : r.answer with
    | none => rw [hquestion, hoptions, hanswer] at hfr; exact absurd hfr (by simp)
    | some ans =>
    cases hexplanation : r.explanation with
    | none => rw [hquestion, hoptions, hanswer, hexplanation] at hfr; exact absurd hfr (by simp)
    | some ev =>
    cases ev with
    | pyNone => rw [hquestion, hoptions, hanswer, hexplanation] at hfr; exact absurd hfr (by simp)
    | pyStr expl =>
      rw [hquestion, hoptions, hanswer, hexplanation] at hfr
      simp only at hfr
      by_cases h4 : opts.length = 4
      · rw [if_pos h4] at hfr
        injection hfr with hfr2
        subst hfr2
        exact ⟨h4, normalize_exam_answer_letter opts h4 ans⟩
      · rw [if_neg h4] at hfr
        exact absurd hfr (by simp)
  · intro options raw h1 h2
    unfold SmartQuizService.normalize_quiz_answer
    dsimp only
    rw [if_pos ⟨h1, h2⟩]

/-- A one-question raw exam batch whose raw answer is the lowercase letter
`"c"`. -/
def c3_exam_raw : List RawQuestion :=
  [{ question := some (PyValue.pyStr "Q"), options := some ["W", "X", "Y", "Z"], answer := some "c",
     explanation := some (PyValue.pyStr "E") }]

/-- The validated form of the question in `c3_exam_raw`. -/
def c3_exam_fixed : Question :=
  { question := PyValue.pyStr "Q", options := ["W", "X", "Y", "Z"], answer := "C", explanation := PyValue.pyStr "E" }

/-- Witness for the amended C3: a 4-option exam batch yields letter labels,
and the quiz normalizer maps `"b"` to `"B"` even for the 2-option set
`["True", "False"]`. -/
theorem C3_canonical_label_amended_witness :
    (c3_exam_fixed.options.length = 4 ∧
      (c3_exam_fixed.answer = "A" ∨ c3_exam_fixed.answer = "B" ∨
       c3_exam_fixed.answer = "C" ∨ c3_exam_fixed.answer = "D"))
    ∧ SmartQuizService.normalize_quiz_answer ["True", "False"] "b" = pyUpper (pyStrip "b") := by
  have h := C3_canonical_label_amended c3_exam_raw
  exact ⟨h.1 c3_exam_fixed (by decide), h.2 ["True", "False"] "b" (by decide) (by decide)⟩

/-! ## C4 -/

/-- Claim-side survival test for the quiz validator: all four keys present,
`options` an actual list of length exactly 2 or 4, `answer` a string value.
The values under `question` and `explanation` are not constrained — a
present `None` survives. -/
def quiz_survives (q : RawQuestion) : Bool :=
  match q.question, q.options, q.answer, q.explanation with
  | some _, some opts, some _, some _ => decide (opts.length = 2 ∨ opts.length = 4)
  | _, _, _, _ => false

/-- Claim-side repair applied to a surviving quiz question. -/
def quiz_repair (q : RawQuestion) : Question :=
  { question := q.question.getD PyValue.pyNone, options := q.options.getD [],
    answer := SmartQuizService.normalize_quiz_answer (q.options.getD []) (q.answer.getD ""),
    explanation := q.explanation.getD PyValue.pyNone }

/-- Claim-side survival test for the exam validator: all four values
non-`None` (so a present `None` `question`/`explanation` is dropped here,
unlike in the quiz validator), `options` a list of length exactly 4. -/
def exam_survives (q : RawQuestion) : Bool :=
  match q.question, q.options, q.answer, q.explanation with
  | some (PyValue.pyStr _), some opts, some _, some (PyValue.pyStr _) =>
    decide (opts.length = 4)
  | _, _, _, _ => false

/-- Claim-side repair applied to a surviving exam question. -/
def exam_repair (q : RawQuestion) : Question :=
  { question := q.question.getD PyValue.pyNone, options := q.options.getD [],
    answer := ExamSimulatorService.normalize_exam_answer (q.options.getD []) (q.answer.getD ""),
    explanation := q.explanation.getD PyValue.pyNone }

/-- The 5-question raw batch of the survival example: the third question has
no `explanation`. -/
def c4_batch : List RawQuestion :=
  [{ question := some (PyValue.pyStr "Q1"), options := some ["W", "X", "Y", "Z"], answer := some "A",
     explanation := some (PyValue.pyStr "E1") },
   { question := some (PyValue.pyStr "Q2"), options := some ["W", "X", "Y", "Z"], answer := some "B",
     explanation := some (PyValue.pyStr "E2") },
   { question := some (PyValue.pyStr "Q3"), options := some ["W", "X", "Y", "Z"], answer := some "C",
     explanation := none },
   { question := some (PyValue.pyStr "Q4"), options := some ["W", "X", "Y", "Z"], answer := some "D",
     explanation := some (PyValue.pyStr "E4") },
   { question := some (PyValue.pyStr "Q5"), options := some ["True", "False"], answer := some "True",
     explanation := some (PyValue.pyStr "E5") }]

/-- C4 counterexample: a question whose `explanation` is present but empty is
NOT dropped by either validator — both check only key presence (`key in
question` / `is not None`), so "absent or empty" overstates the filter. -/
theorem C4_counterexample :
    (SmartQuizService.validate_and_fix_quiz_questions
        [{ question := some (PyValue.pyStr "Q"), options := some ["W", "X", "Y", "Z"], answer := some "A",
           explanation := some (PyValue.pyStr "") }]).length = 1
    ∧ (ExamSimulatorService.validate_and_fix_exam_questions
        [{ question := some (PyValue.pyStr "Q"), options := some ["W", "X", "Y", "Z"], answer := some "A",
           explanation := some (PyValue.pyStr "") }]).length = 1 := by
  exact ⟨rfl, rfl⟩

/-- A one-question batch whose `explanation` key is present but holds `None`:
the quiz validator keeps it (it only checks key presence and never touches
the value), the exam validator drops it (`is not None`). -/
def c4_none_explanation : List RawQuestion :=
  [{ question := some (PyValue.pyStr "Q"), options := some ["W", "X", "Y", "Z"],
     answer := some "A", explanation := some PyValue.pyNone }]

/-- C4 amended: the quiz validator drops exactly those questions with an
absent key among `{question, options, answer, explanation}`, a `None` or
non-list `options`, a `None` `answer`, or an option count other than 2 or 4;
a present `None` under `question` or `explanation` survives it, while the
exam validator (whose checks are `is not None`) drops that case too and
requires exactly 4 options. A present-but-empty field never causes a drop.
Survivors keep their original relative order with their answers repaired,
and the 5-question batch with one missing `explanation` yields exactly the
other 4 in order. -/
theorem C4_validator_drops_exactly_amended (raw : List RawQuestion) :
    SmartQuizService.validate_and_fix_quiz_questions raw
      = (raw.filter quiz_survives).map quiz_repair
    ∧ ExamSimulatorService.validate_and_fix_exam_questions raw
      = (raw.filter exam_survives).map exam_repair
    ∧ (SmartQuizService.validate_and_fix_quiz_questions c4_batch).map Question.question
      = [PyValue.pyStr "Q1", PyValue.pyStr "Q2", PyValue.pyStr "Q4", PyValue.pyStr "Q5"]
    ∧ (SmartQuizService.validate_and_fix_quiz_questions c4_none_explanation).length = 1
    ∧ (ExamSimulatorService.validate_and_fix_exam_questions c4_none_explanation).length = 0 := by
  refine ⟨?_, ?_, rfl, rfl, rfl⟩
  · induction raw with
    | nil => rfl
    | cons q rest ih =>
      unfold SmartQuizService.validate_and_fix_quiz_questions at ih ⊢
      rw [List.filterMap_cons, List.filter_cons]
      cases hquestion : q.question with
      | none => simpa [quiz_survives, hquestion] using ih
      | some text =>
      cases hoptions : q.options with
      | none => simpa [quiz_survives, hquestion, hoptions] using ih
      | some opts =>
      cases hanswer : q.answer with
      | none => simpa [quiz_survives, hquestion, hoptions, hanswer] using ih
      | some ans =>
      cases hexplanation : q.explanation with
      | none => simpa [quiz_survives, hquestion, hoptions, hanswer, hexplanation] using ih
      | some expl =>
        by_cases hlen : opts.length = 2 ∨ opts.length = 4
        · simp only [quiz_survives, hquestion, hoptions, hanswer, hexplanation,
            if_pos hlen, decide_eq_true hlen, if_pos]
          rw [List.map_cons, ih]
          simp [quiz_repair, hquestion, hoptions, hanswer, hexplanation]
        · simp only [quiz_survives, hquestion, hoptions, hanswer, hexplanation,
            if_neg hlen]
          simpa [hlen] using ih
  · induction raw with
    | nil => rfl
    | cons q rest ih =>
      unfold ExamSimulatorService.validate_and_fix_exam_questions at ih ⊢
      rw [List.filterMap_cons, List.filter_cons]
      cases hquestion : q.question with
      | none => simpa [exam_survives, hquestion] using ih
      | some qv =>
      cases qv with
      | pyNone => simpa [exam_survives, hquestion] using ih
      | pyStr text =>
      cases hoptions : q.options with
      | none => simpa [exam_survives, hquestion, hoptions] using ih
      | some opts =>
      cases hanswer : q.answer with
      | none => simpa [exam_survives, hquestion, hoptions, hanswer] using ih
      | some ans =>
      cases hexplanation : q.explanation with
      | none => simpa [exam_survives, hquestion, hoptions, hanswer, hexplanation] using ih
      | some ev =>
      cases ev with
      | pyNone => simpa [exam_survives, hquestion, hoptions, hanswer, hexplanation] using ih
      | pyStr expl =>
        by_cases hlen : opts.length = 4
        · simp only [exam_survives, hquestion, hoptions, hanswer, hexplanation,
            if_pos hlen, decide_eq_true hlen, if_pos]
          rw [List.map_cons, ih]
          simp [exam_repair, hquestion, hoptions, hanswer, hexplanation]
        · simp only [exam_survives, hquestion, hoptions, hanswer, hexplanation,
            if_neg hlen]
          simpa [hlen] using ih

/-! ## C5 -/

/-- Claim-side letter assignment: inclusive lower-bound thresholds on the
percentage, evaluated top-down. -/
def grade_letter_spec (percentage : ℚ) : String :=
  if percentage ≥ 70 then "A"
  else if percentage ≥ 60 then "B"
  else if percentage ≥ 50 then "C"
  else if percentage ≥ 45 then "D"
  else if percentage ≥ 40 then "E"
  else "F"

/-- Claim-side remark assignment, same thresholds. -/
def grade_remark_spec (percentage : ℚ) : String :=
  if percentage ≥ 70 then "Excellent! Distinction level."
  else if percentage ≥ 60 then "Very Good. Keep it up."
  else if percentage ≥ 50 then "Credit. You passed, but barely."
  else if percentage ≥ 45 then "Pass. You need to study more."
  else if percentage ≥ 40 then "Weak Pass. Dangerous territory."
  else "Fail. You are not ready for this exam."

/-- C5: with `total = 0` both `calculate_grade` revisions return
`("N/A", "No questions graded.", 0.0)` without error; with `total > 0` the
letter and remark are exactly the top-down inclusive thresholds applied to
the returned percentage; a percentage of exactly 70.0 yields `"A"` and 69.99
yields `"B"` (for both revisions, realized at score 6999 of 10000). -/
theorem C5_grade_thresholds (score total : Nat) (h : 0 < total) :
    ExamSimulatorService.calculate_grade score 0 = ("N/A", "No questions graded.", 0)
    ∧ SmartQuizService.calculate_grade score 0 = ("N/A", "No questions graded.", 0)
    ∧ (ExamSimulatorService.calculate_grade score total).1
        = grade_letter_spec ((ExamSimulatorService.calculate_grade score total).2.2)
    ∧ (ExamSimulatorService.calculate_grade score total).2.1
        = grade_remark_spec ((ExamSimulatorService.calculate_grade score total).2.2)
    ∧ (SmartQuizService.calculate_grade score total).1
        = grade_letter_spec ((SmartQuizService.calculate_grade score total).2.2)
    ∧ (SmartQuizService.calculate_grade score total).2.1
        = grade_remark_spec ((SmartQuizService.calculate_grade score total).2.2)
    ∧ ExamSimulatorService.calculate_grade 7 10 = ("A", "Excellent! Distinction level.", 70)
    ∧ SmartQuizService.calculate_grade 7 10 = ("A", "Excellent! Distinction level.", 70)
    ∧ ExamSimulatorService.calculate_grade 6999 10000
        = ("B", "Very Good. Keep it up.", 6999 / 100)
    ∧ SmartQuizService.calculate_grade 6999 10000
        = ("B", "Very Good. Keep it up.", 6999 / 100) := by
  refine ⟨rfl, rfl, ?_, ?_, ?_, ?_, ?_, ?_, ?_, ?_⟩
  · rw [exam_percentage_eval score total h]
    unfold ExamSimulatorService.calculate_grade grade_letter_spec
    rw [if_neg (by omega)]
    dsimp only
    split_ifs <;> rfl
  · rw [exam_percentage_eval score total h]
    unfold ExamSimulatorService.calculate_grade grade_remark_spec
    rw [if_neg (by omega)]
    dsimp only
    split_ifs <;> rfl
  · rw [quiz_percentage_eval score total h]
    unfold SmartQuizService.calculate_grade grade_letter_spec
    rw [if_neg (by omega)]
    dsimp only
    split_ifs <;> rfl
  · rw [quiz_percentage_eval score total h]
    unfold SmartQuizService.calculate_grade grade_remark_spec
    rw [if_neg (by omega)]
    dsimp only
    split_ifs <;> rfl
  · unfold ExamSimulatorService.calculate_grade
    norm_num
  · unfold SmartQuizService.calculate_grade
    norm_num [pyRound2, roundHalfEven]
  · unfold ExamSimulatorService.calculate_grade
    norm_num
  · unfold SmartQuizService.calculate_grade
    norm_num [pyRound2, roundHalfEven]

/-- Witness for C5 at score 3, total 4. -/
theorem C5_grade_thresholds_witness :
    (ExamSimulatorService.calculate_grade 3 4).1
      = grade_letter_spec ((ExamSimulatorService.calculate_grade 3 4).2.2)
    ∧ (SmartQuizService.calculate_grade 3 4).1
      = grade_letter_spec ((SmartQuizService.calculate_grade 3 4).2.2) := by
  have h := C5_grade_thresholds 3 4 (by omega)
  exact ⟨h.2.2.1, h.2.2.2.2.1⟩

/-! ## C6 -/

/-- C6: on an empty population both comparators return the neutral
no-comparison message with no percentile value (and no division is
attempted); on a non-empty population the percentile is the number of prior
percentages strictly below the current one, divided by the population size,
times 100 — ties are not outperformed, so `[50, 50, 50]` against `50.0`
yields percentile 0. -/
theorem C6_percentile_comparator (pop : List ℚ) (current : ℚ) (h : pop ≠ []) :
    ExamSimulatorService.get_exam_performance_comparison [] current
      = { success := true,
          comparison_message := "No other submissions yet for comparison.",
          percentile := none }
    ∧ SmartQuizService.get_quiz_performance_comparison [] current
      = { success := true,
          comparison_message := "No other submissions yet for comparison.",
          percentile := none }
    ∧ (ExamSimulatorService.get_exam_performance_comparison pop current).percentile
      = some (((pop.countP fun p => current > p : Nat) : ℚ) / (pop.length : ℚ) * 100)
    ∧ (SmartQuizService.get_quiz_performance_comparison pop current).percentile
      = some (((pop.countP fun p => current > p : Nat) : ℚ) / (pop.length : ℚ) * 100)
    ∧ (ExamSimulatorService.get_exam_performance_comparison [50, 50, 50] 50).percentile
      = some 0
    ∧ (SmartQuizService.get_quiz_performance_comparison [50, 50, 50] 50).percentile
      = some 0 := by
  have hempty : pop.isEmpty = false := by
    cases pop with
    | nil => exact absurd rfl h
    | cons a l => rfl
  have hlen : pop.length > 0 := List.length_pos.mpr h
  have hcount : ([50, 50, 50] : List ℚ).countP (fun p => (50 : ℚ) > p) = 0 := by
    simp [List.countP_cons, List.countP_nil]
  refine ⟨rfl, rfl, ?_, ?_, ?_, ?_⟩
  · unfold ExamSimulatorService.get_exam_performance_comparison
    rw [if_neg (by simp [hempty]), if_pos hlen]
  · unfold SmartQuizService.get_quiz_performance_comparison
    rw [if_neg (by simp [hempty]), if_pos hlen]
  · unfold ExamSimulatorService.get_exam_performance_comparison
    norm_num [hcount]
  · unfold SmartQuizService.get_quiz_performance_comparison
    norm_num [hcount]

/-- Witness for C6 on the tied population. -/
theorem C6_percentile_comparator_witness :
    (ExamSimulatorService.get_exam_performance_comparison [50, 50, 50] 50).percentile
      = some ((([50, 50, 50].countP fun p => (50 : ℚ) > p : Nat) : ℚ) / (([50, 50, 50] : List ℚ).length : ℚ) * 100) :=
  (C6_percentile_comparator [50, 50, 50] 50 (by simp)).2.2.1

/-! ## C7 -/

theorem find_matching_option_loop_none (answer : String) :
    ∀ (opts : List String) (start : Nat),
      (∀ opt ∈ opts,
        ¬(pyLower answer = pyLower opt ∨ pyIn answer opt = true ∨ pyIn opt answer = true)) →
      find_matching_option_loop answer start opts = none := by
  intro opts
  induction opts with
  | nil => intro start _; rfl
  | cons o rest ih =>
    intro start hnone
    unfold find_matching_option_loop
    rw [if_neg (hnone o (List.mem_cons_self o rest))]
    exact ih (start + 1) fun opt hopt => hnone opt (List.mem_cons_of_mem o hopt)

/-- C7: when the stripped raw answer matches no rule — not a single letter
`A`..`D` (case-insensitively), not `true`/`false`, and matching no option by
case-insensitive equality or substring containment in either direction — the
quiz normalizer returns the default `"A"` for 4-option questions and
`"True"` otherwise, and the exam normalizer returns `"A"`; both are total
functions, so no input can raise. In particular garbage `"xyz"` on a
4-option question yields `"A"`. -/
theorem C7_normalizer_defaults (options : List String) (raw : String)
    (h1 : ¬((pyStrip raw).length = 1 ∧
        (pyUpper (pyStrip raw) = "A" ∨ pyUpper (pyStrip raw) = "B" ∨
         pyUpper (pyStrip raw) = "C" ∨ pyUpper (pyStrip raw) = "D")))
    (h2 : ¬(pyLower (pyStrip raw) = "true" ∨ pyLower (pyStrip raw) = "false"))
    (h3 : ∀ opt ∈ options,
        ¬(pyLower (pyStrip raw) = pyLower opt ∨ pyIn (pyStrip raw) opt = true ∨
          pyIn opt (pyStrip raw) = true)) :
    SmartQuizService.normalize_quiz_answer options raw
      = (if options.length = 4 then "A" else "True")
    ∧ ExamSimulatorService.normalize_exam_answer options raw = "A"
    ∧ SmartQuizService.normalize_quiz_answer ["one", "two", "three", "four"] "xyz" = "A"
    ∧ ExamSimulatorService.normalize_exam_answer ["one", "two", "three", "four"] "xyz" = "A" := by
  have hfind : find_matching_option options (pyStrip raw) = none :=
    find_matching_option_loop_none (pyStrip raw) options 0 h3
  refine ⟨?_, ?_, rfl, rfl⟩
  · unfold SmartQuizService.normalize_quiz_answer
    dsimp only
    rw [if_neg h1, if_neg h2, hfind]
  · unfold ExamSimulatorService.normalize_exam_answer
    dsimp only
    rw [if_neg h1, hfind]

/-- Witness for C7 on the garbage answer `"xyz"` over 4 options. -/
theorem C7_normalizer_defaults_witness :
    SmartQuizService.normalize_quiz_answer ["one", "two", "three", "four"] "xyz"
      = (if (["one", "two", "three", "four"] : List String).length = 4 then "A" else "True")
    ∧ ExamSimulatorService.normalize_exam_answer ["one", "two", "three", "four"] "xyz" = "A" := by
  have h := C7_normalizer_defaults ["one", "two", "three", "four"] "xyz"
    (by decide) (by decide) (by decide)
  exact ⟨h.1, h.2.1⟩

/-! ## C8 -/

/-- A route reply that carries no share: either an HTTP error, or a passed
outcome with no share id and no inserted shared record. -/
def route_reply_shareless : Routers.RouteResult → Prop
  | .httpError _ _ => True
  | .ok o => o.share_id = none ∧ o.shared_record_inserted = false

theorem wrap_shareless_of_failure (o : GenerationOutcome) (h : o.success = false) :
    route_reply_shareless (Routers.wrap_service_outcome o) := by
  unfold Routers.wrap_service_outcome
  rw [h]
  dsimp only
  split_ifs <;> trivial

theorem quiz_service_guest_share_denied (user_id quiz_topic : String)
    (groq_ok : Bool) (ai : Option (List RawQuestion)) (fresh : String) (db_ok : Bool)
    (hguest : pyStartsWith user_id "guest_" = true) :
    (SmartQuizService.generate_quiz_service user_id quiz_topic true groq_ok ai
        fresh db_ok).success = false
    ∧ (SmartQuizService.generate_quiz_service user_id quiz_topic true groq_ok ai
        fresh db_ok).share_id = none
    ∧ (SmartQuizService.generate_quiz_service user_id quiz_topic true groq_ok ai
        fresh db_ok).shared_record_inserted = false
    ∧ (quiz_topic ≠ "" →
        (SmartQuizService.generate_quiz_service user_id quiz_topic true groq_ok ai
          fresh db_ok).message
        = some "Guest users cannot create sharable quizzes. Please log in.") := by
  unfold SmartQuizService.generate_quiz_service
  by_cases htopic : quiz_topic = ""
  · rw [if_pos htopic]
    exact ⟨rfl, rfl, rfl, fun hc => absurd htopic hc⟩
  · rw [if_neg htopic, if_pos ⟨rfl, hguest⟩]
    exact ⟨rfl, rfl, rfl, fun _ => rfl⟩

theorem exam_service_guest_share_denied (user_id course_name : String)
    (topic notes : Option String) (groq_ok : Bool) (ai : Option (List RawQuestion))
    (fresh : String) (db_ok : Bool)
    (hguest : pyStartsWith user_id "guest_" = true) :
    (ExamSimulatorService.generate_exam_questions user_id course_name topic notes
        true groq_ok ai fresh db_ok).success = false
    ∧ (ExamSimulatorService.generate_exam_questions user_id course_name topic notes
        true groq_ok ai fresh db_ok).share_id = none
    ∧ (ExamSimulatorService.generate_exam_questions user_id course_name topic notes
        true groq_ok ai fresh db_ok).shared_record_inserted = false
    ∧ (course_name ≠ "" → (pyTruthy topic = true ∨ pyTruthy notes = true) →
        (ExamSimulatorService.generate_exam_questions user_id course_name topic notes
          true groq_ok ai fresh db_ok).message
        = some "Guest users cannot create sharable exams. Please log in to use this feature.") := by
  unfold ExamSimulatorService.generate_exam_questions
  by_cases hcourse : course_name = ""
  · rw [if_pos hcourse]
    exact ⟨rfl, rfl, rfl, fun hc => absurd hcourse hc⟩
  · rw [if_neg hcourse]
    by_cases hsrc : pyTruthy topic = false ∧ pyTruthy notes = false
    · rw [if_pos hsrc]
      refine ⟨rfl, rfl, rfl, fun _ hor => ?_⟩
      rcases hor with h | h
      · rw [hsrc.1] at h; cases h
      · rw [hsrc.2] at h; cases h
    · rw [if_neg hsrc, if_pos ⟨rfl, hguest⟩]
      exact ⟨rfl, rfl, rfl, fun _ _ => rfl⟩

/-- C8: a share token is never issued to a guest creator. At service level,
a sharing request from a `guest_`-prefixed identity fails before any AI or
database work, creates no shared record, returns no share id, and (once the
prior input guards pass) reports sharing as unavailable for guests. At route
level, an anonymous request with sharing requested never produces a reply
carrying a share id or an inserted shared record, whatever the limiter
state, AI reply, or database behaviour. -/
theorem C8_guests_never_get_share_tokens
    (user_id quiz_topic course_name : String) (topic notes : Option String)
    (tracker : String → Nat) (groq_ok : Bool) (ai : Option (List RawQuestion))
    (fresh : String) (db_ok : Bool)
    (hguest : pyStartsWith user_id "guest_" = true) :
    ((SmartQuizService.generate_quiz_service user_id quiz_topic true groq_ok ai
        fresh db_ok).share_id = none
     ∧ (SmartQuizService.generate_quiz_service user_id quiz_topic true groq_ok ai
        fresh db_ok).shared_record_inserted = false
     ∧ (quiz_topic ≠ "" →
        (SmartQuizService.generate_quiz_service user_id quiz_topic true groq_ok ai
          fresh db_ok).message
          = some "Guest users cannot create sharable quizzes. Please log in."))
    ∧ ((ExamSimulatorService.generate_exam_questions user_id course_name topic notes
        true groq_ok ai fresh db_ok).share_id = none
     ∧ (ExamSimulatorService.generate_exam_questions user_id course_name topic notes
        true groq_ok ai fresh db_ok).shared_record_inserted = false)
    ∧ route_reply_shareless
        (Routers.generate_quiz_route none tracker quiz_topic true groq_ok ai
          fresh db_ok).1
    ∧ route_reply_shareless
        (Routers.generate_exam_route none tracker course_name topic notes true
          groq_ok ai fresh db_ok).1 := by
  have hq := quiz_service_guest_share_denied user_id quiz_topic groq_ok ai fresh db_ok hguest
  have he := exam_service_guest_share_denied user_id course_name topic notes groq_ok ai
    fresh db_ok hguest
  refine ⟨⟨hq.2.1, hq.2.2.1, hq.2.2.2⟩, ⟨he.2.1, he.2.2.1⟩, ?_, ?_⟩
  · unfold Routers.generate_quiz_route
    dsimp only
    split_ifs with hlim
    · trivial
    · exact wrap_shareless_of_failure _
        (quiz_service_guest_share_denied "guest_smart_quiz" quiz_topic groq_ok ai
          fresh db_ok (by decide)).1
  · unfold Routers.generate_exam_route
    dsimp only
    split_ifs with hlim
    · trivial
    · exact wrap_shareless_of_failure _
        (exam_service_guest_share_denied "guest_exam_simulator_generate" course_name
          topic notes groq_ok ai fresh db_ok (by decide)).1

/-- Witness for C8: a guest requesting a sharable quiz and exam. -/
theorem C8_guests_never_get_share_tokens_witness :
    (SmartQuizService.generate_quiz_service "guest_smart_quiz" "Algebra" true true
        none "id-1" true).share_id = none
    ∧ (SmartQuizService.generate_quiz_service "guest_smart_quiz" "Algebra" true true
        none "id-1" true).message
      = some "Guest users cannot create sharable quizzes. Please log in."
    ∧ (ExamSimulatorService.generate_exam_questions "guest_exam_simulator_generate"
        "Math" (some "Limits") none true true none "id-2" true).share_id = none := by
  have h := C8_guests_never_get_share_tokens "guest_smart_quiz" "Algebra" "Math"
    (some "Limits") none (fun _ => 0) true none "id-1" true (by decide)
  have h2 := C8_guests_never_get_share_tokens "guest_exam_simulator_generate" "Algebra"
    "Math" (some "Limits") none (fun _ => 0) true none "id-2" true (by decide)
  exact ⟨h.1.1, h.1.2.2 (by decide), h2.2.1.1⟩

/-! ## C9 -/

/-- C9: for every tracker state, bucket key and limit — when the stored count
(implicitly 0 at first use) has reached the limit the request is denied and
the tracker is returned unchanged; when it is below the limit the request is
allowed and exactly that bucket's counter grows by one; and in all cases no
counter ever decreases. -/
theorem C9_guest_limiter (tracker : String → Nat) (guest_id : String) (limit : Nat) :
    (tracker guest_id ≥ limit →
      Routers.guest_check_and_increment tracker guest_id limit = (false, tracker))
    ∧ (tracker guest_id < limit →
        (Routers.guest_check_and_increment tracker guest_id limit).1 = true
        ∧ (Routers.guest_check_and_increment tracker guest_id limit).2 guest_id
            = tracker guest_id + 1
        ∧ ∀ k, k ≠ guest_id →
            (Routers.guest_check_and_increment tracker guest_id limit).2 k = tracker k)
    ∧ ∀ k, tracker k ≤ (Routers.guest_check_and_increment tracker guest_id limit).2 k := by
  unfold Routers.guest_check_and_increment
  dsimp only
  refine ⟨fun hge => by rw [if_pos hge], fun hlt => ?_, fun k => ?_⟩
  · rw [if_neg (by omega)]
    exact ⟨rfl, by simp, fun k hk => by simp [hk]⟩
  · split_ifs with hge
    · exact Nat.le_refl _
    · dsimp only
      by_cases hk : k = guest_id
      · subst hk; simp
      · simp [hk]

/-- Witness for C9: a fresh tracker under limit 1 allows and increments; a
tracker already at the limit denies unchanged. -/
theorem C9_guest_limiter_witness :
    (Routers.guest_check_and_increment (fun _ => 0) "guest_smart_quiz" 1).1 = true
    ∧ (Routers.guest_check_and_increment (fun _ => 0) "guest_smart_quiz" 1).2
        "guest_smart_quiz" = 1
    ∧ Routers.guest_check_and_increment (fun _ => 1) "guest_smart_quiz" 1
        = (false, fun _ => 1) := by
  have h0 := C9_guest_limiter (fun _ => 0) "guest_smart_quiz" 1
  have h1 := C9_guest_limiter (fun _ => 1) "guest_smart_quiz" 1
  exact ⟨(h0.2.1 (by omega)).1, (h0.2.1 (by omega)).2.1, h1.1 (by omega)⟩

/-! ## C10 -/

theorem exam_score_loop_le (ans : String → Option String) (qs : List Question) :
    ∀ idx, ExamSimulatorService.exam_score_loop ans idx qs ≤ qs.length := by
  induction qs with
  | nil => intro idx; exact Nat.le_refl 0
  | cons q rest ih =>
    intro idx
    unfold ExamSimulatorService.exam_score_loop
    have hhead : (match ans (toString idx) with
        | none => 0
        | some user_selected_label =>
          if user_selected_label = "" ∨ q.answer = "" then 0
          else if pyUpper (pyStrip user_selected_label) = pyUpper (pyStrip q.answer)
          then 1 else 0) ≤ 1 := by
      cases ans (toString idx) with
      | none => exact Nat.zero_le 1
      | some l =>
        dsimp only
        split_ifs <;> omega
    have htail := ih (idx + 1)
    simp only [List.length_cons]
    omega

theorem shared_quiz_score_loop_le (ans : String → Option String) (qs : List Question) :
    ∀ idx, SmartQuizService.shared_quiz_score_loop ans idx qs ≤ qs.length := by
  induction qs with
  | nil => intro idx; exact Nat.le_refl 0
  | cons q rest ih =>
    intro idx
    unfold SmartQuizService.shared_quiz_score_loop
    have htail := ih (idx + 1)
    simp only [List.length_cons]
    split_ifs <;> omega

theorem roundHalfEven_cases (x : ℚ) :
    roundHalfEven x = ⌊x⌋ ∨ (roundHalfEven x = ⌊x⌋ + 1 ∧ 1 / 2 ≤ x - ⌊x⌋) := by
  unfold roundHalfEven
  dsimp only
  split_ifs with h1 h2 h3
  · exact Or.inl rfl
  · exact Or.inr ⟨rfl, by linarith⟩
  · exact Or.inl rfl
  · exact Or.inr ⟨rfl, by linarith⟩

theorem roundHalfEven_nonneg (x : ℚ) (hx : 0 ≤ x) : 0 ≤ roundHalfEven x := by
  have hf : 0 ≤ ⌊x⌋ := Int.floor_nonneg.mpr hx
  rcases roundHalfEven_cases x with h | ⟨h, _⟩ <;> omega

theorem roundHalfEven_le_of_le (x : ℚ) (b : ℤ) (hxb : x ≤ b) : roundHalfEven x ≤ b := by
  rcases roundHalfEven_cases x with h | ⟨h, hhalf⟩
  · rw [h]
    calc ⌊x⌋ ≤ ⌊(b : ℚ)⌋ := Int.floor_le_floor hxb
    _ = b := Int.floor_intCast b
  · rw [h]
    have hfx : (⌊x⌋ : ℚ) ≤ x - 1 / 2 := by linarith
    have hlt : (⌊x⌋ : ℚ) < (b : ℚ) := by linarith
    have : ⌊x⌋ < b := by exact_mod_cast hlt
    omega

theorem pyRound2_bounds (x : ℚ) (h0 : 0 ≤ x) (h1 : x ≤ 100) :
    0 ≤ pyRound2 x ∧ pyRound2 x ≤ 100 := by
  unfold pyRound2
  have ha : 0 ≤ roundHalfEven (x * 100) := roundHalfEven_nonneg _ (by positivity)
  have hb : roundHalfEven (x * 100) ≤ 10000 :=
    roundHalfEven_le_of_le _ 10000 (by push_cast; linarith)
  constructor
  · apply div_nonneg _ (by norm_num)
    exact_mod_cast ha
  · rw [div_le_iff₀ (by norm_num)]
    have : (roundHalfEven (x * 100) : ℚ) ≤ 10000 := by exact_mod_cast hb
    linarith

theorem ratio_percentage_bounds (score total : Nat) (hle : score ≤ total)
    (hpos : 0 < total) :
    0 ≤ (score : ℚ) / (total : ℚ) * 100 ∧ (score : ℚ) / (total : ℚ) * 100 ≤ 100 := by
  have h1 : (score : ℚ) ≤ (total : ℚ) := by exact_mod_cast hle
  have h2 : (0 : ℚ) < (total : ℚ) := by exact_mod_cast hpos
  constructor
  · positivity
  · rw [div_mul_eq_mul_div, div_le_iff₀ h2]
    linarith

theorem exam_grade_percentage_bounds (score total : Nat) (hle : score ≤ total) :
    0 ≤ (ExamSimulatorService.calculate_grade score total).2.2
    ∧ (ExamSimulatorService.calculate_grade score total).2.2 ≤ 100 := by
  rcases Nat.eq_zero_or_pos total with h0 | hpos
  · subst h0
    constructor <;> norm_num [ExamSimulatorService.calculate_grade]
  · rw [exam_percentage_eval score total hpos]
    exact ratio_percentage_bounds score total hle hpos

theorem quiz_grade_percentage_bounds (score total : Nat) (hle : score ≤ total) :
    0 ≤ (SmartQuizService.calculate_grade score total).2.2
    ∧ (SmartQuizService.calculate_grade score total).2.2 ≤ 100 := by
  rcases Nat.eq_zero_or_pos total with h0 | hpos
  · subst h0
    constructor <;> norm_num [SmartQuizService.calculate_grade]
  · rw [quiz_percentage_eval score total hpos]
    have hb := ratio_percentage_bounds score total hle hpos
    exact pyRound2_bounds _ hb.1 hb.2

theorem exam_score_loop_congr (ans1 ans2 : String → Option String) (qs : List Question) :
    ∀ start, (∀ i, i < qs.length → ans1 (toString (start + i)) = ans2 (toString (start + i))) →
    ExamSimulatorService.exam_score_loop ans1 start qs
      = ExamSimulatorService.exam_score_loop ans2 start qs := by
  induction qs with
  | nil => intro start _; rfl
  | cons q rest ih =>
    intro start h
    unfold ExamSimulatorService.exam_score_loop
    have h0 : ans1 (toString start) = ans2 (toString start) := by
      have := h 0 (by simp)
      simpa using this
    rw [h0]
    congr 1
    apply ih (start + 1)
    intro i hi
    have hmem : i + 1 < (q :: rest).length := by simp only [List.length_cons]; omega
    have := h (i + 1) hmem
    have heq : start + (i + 1) = start + 1 + i := by omega
    rw [heq] at this
    exact this

theorem shared_quiz_score_loop_congr (ans1 ans2 : String → Option String)
    (qs : List Question) :
    ∀ start, (∀ i, i < qs.length → ans1 (toString (start + i)) = ans2 (toString (start + i))) →
    SmartQuizService.shared_quiz_score_loop ans1 start qs
      = SmartQuizService.shared_quiz_score_loop ans2 start qs := by
  induction qs with
  | nil => intro start _; rfl
  | cons q rest ih =>
    intro start h
    unfold SmartQuizService.shared_quiz_score_loop
    have h0 : ans1 (toString start) = ans2 (toString start) := by
      have := h 0 (by simp)
      simpa using this
    rw [h0]
    congr 1
    apply ih (start + 1)
    intro i hi
    have hmem : i + 1 < (q :: rest).length := by simp only [List.length_cons]; omega
    have := h (i + 1) hmem
    have heq : start + (i + 1) = start + 1 + i := by omega
    rw [heq] at this
    exact this

/-- C10: for every question list and submitted-answer mapping, both grading
engines report `total` equal to the number of questions, a score between 0
and `total`, and a percentage between 0 and 100; submitted-answer entries
whose keys are not a question index have no effect on the result. -/
theorem C10_grading_invariants (qs : List Question) (ans ans2 : String → Option String) :
    (ExamSimulatorService.grade_exam_and_log_performance qs ans).total_questions = qs.length
    ∧ (ExamSimulatorService.grade_exam_and_log_performance qs ans).score ≤ qs.length
    ∧ 0 ≤ (ExamSimulatorService.grade_exam_and_log_performance qs ans).percentage
    ∧ (ExamSimulatorService.grade_exam_and_log_performance qs ans).percentage ≤ 100
    ∧ (SmartQuizService.save_shared_quiz_submission qs ans).total_questions = qs.length
    ∧ (SmartQuizService.save_shared_quiz_submission qs ans).score ≤ qs.length
    ∧ 0 ≤ (SmartQuizService.save_shared_quiz_submission qs ans).percentage_score
    ∧ (SmartQuizService.save_shared_quiz_submission qs ans).percentage_score ≤ 100
    ∧ ((∀ i, i < qs.length → ans (toString i) = ans2 (toString i)) →
        ExamSimulatorService.grade_exam_and_log_performance qs ans
          = ExamSimulatorService.grade_exam_and_log_performance qs ans2
        ∧ SmartQuizService.save_shared_quiz_submission qs ans
          = SmartQuizService.save_shared_quiz_submission qs ans2) := by
  have hexam_le := exam_score_loop_le ans qs 0
  have hquiz_le := shared_quiz_score_loop_le ans qs 0
  have hexam_pct := exam_grade_percentage_bounds
    (ExamSimulatorService.exam_score_loop ans 0 qs) qs.length hexam_le
  have hquiz_pct := quiz_grade_percentage_bounds
    (SmartQuizService.shared_quiz_score_loop ans 0 qs) qs.length hquiz_le
  refine ⟨rfl, hexam_le, hexam_pct.1, hexam_pct.2, rfl, hquiz_le, hquiz_pct.1,
    hquiz_pct.2, fun hagree => ?_⟩
  have hagree0 : ∀ i, i < qs.length →
      ans (toString (0 + i)) = ans2 (toString (0 + i)) := by
    intro i hi
    rw [Nat.zero_add]
    exact hagree i hi
  constructor
  · unfold ExamSimulatorService.grade_exam_and_log_performance
    rw [exam_score_loop_congr ans ans2 qs 0 hagree0]
  · unfold SmartQuizService.save_shared_quiz_submission
    rw [shared_quiz_score_loop_congr ans ans2 qs 0 hagree0]

/-- Witness for C10 at the example questions, with a second mapping that adds
an out-of-range entry at key `"7"`. -/
theorem C10_grading_invariants_witness :
    (ExamSimulatorService.grade_exam_and_log_performance c1_questions c1_answers).score
      ≤ c1_questions.length
    ∧ ExamSimulatorService.grade_exam_and_log_performance c1_questions c1_answers
      = ExamSimulatorService.grade_exam_and_log_performance c1_questions
          (fun k => if k = "7" then some "D" else c1_answers k) := by
  have h := C10_grading_invariants c1_questions c1_answers
    (fun k => if k = "7" then some "D" else c1_answers k)
  exact ⟨h.2.1, (h.2.2.2.2.2.2.2.2 (by decide)).1⟩

end LogeekMind
